import Mathlib

/-!
Verification of the order-management backend (`src/app.py`).

The service is a Flask + SQLAlchemy + marshmallow CRUD backend over three
entities (Customer, Order, Item).  We embed it shallowly: the database is an
explicit record of three lists plus autoincrement counters, each HTTP handler
becomes a pure function `DB → ... → Except ApiError result × DB`, and the
marshmallow schemas become explicit field-error computations translated from
the schema declarations (`CustomerSchema`, `OrderSchema`, `ItemSchema`,
`OrderItemsSchema`).

State-name vocabulary: the implementation stores the literal strings
`"Solicitada"`, `"Aprobada"`, `"Anulada"`; the specification names these
lifecycle states Requested, Approved and Rejected.  The constants
`Requested`, `Approved`, `Rejected` below record that correspondence.
-/

/-- Row of the `customer` table (`class Customer`, app.py lines 19-33). -/
structure Customer where
  id : Nat
  name : String
  email : String
  phone : String
  address : String
  nationality : String
deriving DecidableEq

/-- Row of the `order` table (`class Order`, app.py lines 35-47).  The
`date` column is kept as the validated `YYYY-MM-DD` string; no claim
depends on calendar arithmetic.  `state` is a free string column. -/
structure Order where
  id : Nat
  customer_id : Nat
  date : String
  state : String
deriving DecidableEq

/-- Row of the `item` table (`class Item`, app.py lines 49-59).  `width` and
`length` are SQL floats; they are modelled as rationals, since every claim
only moves them around and never computes with them. -/
structure Item where
  id : Nat
  order_id : Nat
  width : Rat
  length : Rat
deriving DecidableEq

/-- The persisted state: the three tables plus the autoincrement counters
the store uses to assign primary keys. -/
structure DB where
  customers : List Customer
  orders : List Order
  items : List Item
  nextCustomerId : Nat
  nextOrderId : Nat
  nextItemId : Nat
deriving DecidableEq

/-- The state of the store right after `db.create_all()` on a fresh
database: empty tables, autoincrement counters at 1. -/
def DB.empty : DB := ⟨[], [], [], 1, 1, 1⟩

/-- The initial order state: the code's literal `"Solicitada"` (app.py line
188), which the specification calls "Requested". -/
def Requested : String := "Solicitada"

/-- The approved order state: the code's literal `"Aprobada"` (app.py line
207), which the specification calls "Approved". -/
def Approved : String := "Aprobada"

/-- The rejected order state: the code's literal `"Anulada"` (app.py line
209), which the specification calls "Rejected". -/
def Rejected : String := "Anulada"

/-- The error outcomes a handler can produce.  The first five are the
specification's taxonomy, all returned by the code as HTTP 400 with a
message; `unhandledKeyError` models a Python `KeyError` escaping a handler
(an unstructured process failure, not a structured 400 response). -/
inductive ApiError where
  | validationError (msgs : List (String × String))
  | conflictError (msg : String)
  | notFoundError (msg : String)
  | invalidStateError (msg : String)
  | invalidParameterError (msg : String)
  | unhandledKeyError (key : String)
deriving DecidableEq

/-- Decidable equality of handler outcomes, for evaluating the handlers
on concrete inputs. -/
instance {ε α : Type} [DecidableEq ε] [DecidableEq α] : DecidableEq (Except ε α)
  | .ok a, .ok b =>
    if h : a = b then .isTrue (by rw [h]) else .isFalse (by simp [h])
  | .error a, .error b =>
    if h : a = b then .isTrue (by rw [h]) else .isFalse (by simp [h])
  | .ok _, .error _ => .isFalse (by simp)
  | .error _, .ok _ => .isFalse (by simp)

/-- True exactly on a successful (`ok`) handler outcome. -/
def resultOk {α : Type} : Except ApiError α → Bool
  | .ok _ => true
  | .error _ => false

/-- True exactly on a `conflictError` outcome. -/
def isConflictError {α : Type} : Except ApiError α → Bool
  | .error (.conflictError _) => true
  | _ => false

/-! ### Field validation

marshmallow itself is an external collaborator; the checks below are the
ones declared in the repository's schemas: `validate.Length(min=3)` on
name, `fields.Email()` on email (note: NOT marked required), required +
`validate.Length(min=10)` on phone, required on address and nationality,
required `fields.Date(format=YYYY-MM-DD)` on date, required `fields.Float`
on width and length.  Email and date well-formedness are modelled by
executable approximations of the library validators; no claim depends on
their edge cases, only on a request being accepted or rejected. -/

/-- Split a character list at every occurrence of the separator. -/
def splitOnChar (sep : Char) : List Char → List (List Char)
  | [] => [[]]
  | a :: rest =>
    match splitOnChar sep rest with
    | [] => if a == sep then [[], []] else [[a]]
    | g :: gs => if a == sep then [] :: g :: gs else (a :: g) :: gs

/-- Models the library's email validator: one `@` separating a nonempty
local part from a domain that contains an interior dot. -/
def isValidEmail (s : String) : Bool :=
  match splitOnChar '@' s.toList with
  | [lp, dom] =>
    !lp.isEmpty && !dom.isEmpty && dom.contains '.' &&
      !(dom.headD ' ' == '.') && !(dom.getLastD ' ' == '.')
  | _ => false

/-- Numeric value of a list of decimal digit characters. -/
def digitsToNat (l : List Char) : Nat :=
  l.foldl (fun acc c => acc * 10 + (c.toNat - 48)) 0

/-- Nonempty and all decimal digits. -/
def allDigits (l : List Char) : Bool :=
  !l.isEmpty && l.all Char.isDigit

/-- Day count of a month, with leap years. -/
def daysInMonth (y m : Nat) : Nat :=
  if m == 2 then (if y % 4 == 0 && (y % 100 != 0 || y % 400 == 0) then 29 else 28)
  else if m == 4 || m == 6 || m == 9 || m == 11 then 30
  else 31

/-- Models the library's `%Y-%m-%d` date parser: four-digit year, one- or
two-digit month and day, month and day in range. -/
def isValidDate (s : String) : Bool :=
  match splitOnChar '-' s.toList with
  | [y, m, d] =>
    y.length == 4 && allDigits y && allDigits m && m.length ≤ 2 &&
      allDigits d && d.length ≤ 2 &&
      (let yn := digitsToNat y
       let mn := digitsToNat m
       let dn := digitsToNat d
       1 ≤ mn && mn ≤ 12 && 1 ≤ dn && dn ≤ daysInMonth yn mn)
  | _ => false

/-! ### Request bodies

Each body is the JSON object a caller sends, restricted to the keys the
corresponding schema knows (marshmallow's default `unknown = RAISE`
rejects any other key, so these are the only keys a request that reaches
the handler's logic can carry).  A key is `none` when absent.  The
schemas also accept `id` / `customer_id` / `order_id` as unvalidated raw
fields and a nested object (`customer` on orders, `order` on items) that
the handlers never read; the nested objects are not modelled. -/

/-- Body of `POST /customers` and `PUT /customers/<id>` as `CustomerSchema`
sees it. -/
structure CustomerBody where
  id : Option Nat
  name : Option String
  email : Option String
  phone : Option String
  address : Option String
  nationality : Option String
deriving DecidableEq

/-- Per-field messages produced by a full (non-partial) `CustomerSchema`
load: name, phone, address, nationality are required; name has min length
3, phone min length 10; email is validated when present but is NOT
required (the schema omits `required=True` on `fields.Email()`). -/
def customerFieldErrors (b : CustomerBody) : List (String × String) :=
  (match b.name with
   | none => [("name", "Missing data for required field.")]
   | some n => if n.length < 3 then [("name", "Shorter than minimum length 3.")] else []) ++
  (match b.email with
   | none => []
   | some e => if isValidEmail e then [] else [("email", "Not a valid email address.")]) ++
  (match b.phone with
   | none => [("phone", "Missing data for required field.")]
   | some p => if p.length < 10 then [("phone", "Shorter than minimum length 10.")] else []) ++
  (match b.address with
   | none => [("address", "Missing data for required field.")]
   | some _ => []) ++
  (match b.nationality with
   | none => [("nationality", "Missing data for required field.")]
   | some _ => [])

/-- Per-field messages of the `partial=True` load used by
`update_customer`: required-ness is not enforced, validators still run on
the supplied fields. -/
def patchFieldErrors (b : CustomerBody) : List (String × String) :=
  (match b.name with
   | none => []
   | some n => if n.length < 3 then [("name", "Shorter than minimum length 3.")] else []) ++
  (match b.email with
   | none => []
   | some e => if isValidEmail e then [] else [("email", "Not a valid email address.")]) ++
  (match b.phone with
   | none => []
   | some p => if p.length < 10 then [("phone", "Shorter than minimum length 10.")] else [])

/-- Body of `POST /order/<id>` as `OrderSchema` sees it: `date` is a
required `YYYY-MM-DD` date; `state` is an undeclared raw field the schema
accepts without validation and the handler ignores. -/
structure OrderBody where
  date : Option String
  state : Option String
deriving DecidableEq

/-- Per-field messages of an `OrderSchema` load. -/
def orderFieldErrors (b : OrderBody) : List (String × String) :=
  match b.date with
  | none => [("date", "Missing data for required field.")]
  | some d => if isValidDate d then [] else [("date", "Not a valid date.")]

/-- Body of `POST /item/<id>` as `ItemSchema` sees it: required float
`width` and `length`. -/
structure ItemBody where
  width : Option Rat
  length : Option Rat
deriving DecidableEq

/-- Per-field messages of an `ItemSchema` load. -/
def itemFieldErrors (b : ItemBody) : List (String × String) :=
  (match b.width with
   | none => [("width", "Missing data for required field.")]
   | some _ => []) ++
  (match b.length with
   | none => [("length", "Missing data for required field.")]
   | some _ => [])

/-! ### Handlers -/

/-- Endpoint `POST /customers` (`create_customer`, app.py lines 113-137).  Loads the
body through `CustomerSchema`; on success reads `request.json['email']`
for the duplicate-email query (line 121) — a body with no email key raises
`KeyError` here, since the schema does not require email — then checks the
duplicate-phone query (line 124), then persists and returns the new row.
The later raw reads of name/phone/address/nationality cannot fail after a
successful load (those fields are required); their fallback branches are
kept as the `KeyError` they would raise. -/
def create_customer (db : DB) (b : CustomerBody) :
    Except ApiError Customer × DB :=
  let errs := customerFieldErrors b
  if !errs.isEmpty then (.error (.validationError errs), db)
  else
    match b.email with
    | none => (.error (.unhandledKeyError "email"), db)
    | some email =>
      if (db.customers.find? (fun c => c.email == email)).isSome then
        (.error (.conflictError "user with this email already exists"), db)
      else
        match b.phone with
        | none => (.error (.unhandledKeyError "phone"), db)
        | some phone =>
          if (db.customers.find? (fun c => c.phone == phone)).isSome then
            (.error (.conflictError "user with this phone already exists"), db)
          else
            match b.name, b.address, b.nationality with
            | some name, some address, some nationality =>
              let c : Customer :=
                ⟨db.nextCustomerId, name, email, phone, address, nationality⟩
              (.ok c, ⟨db.customers ++ [c], db.orders, db.items,
                       db.nextCustomerId + 1, db.nextOrderId, db.nextItemId⟩)
            | _, _, _ => (.error (.unhandledKeyError "name"), db)

/-- The record produced by `update_customer`'s attribute loop (app.py
lines 158-160): every supplied key is applied verbatim, except `id`,
which the loop explicitly skips (line 159). -/
def applyPatch (c : Customer) (b : CustomerBody) : Customer :=
  ⟨c.id,
   b.name.getD c.name,
   b.email.getD c.email,
   b.phone.getD c.phone,
   b.address.getD c.address,
   b.nationality.getD c.nationality⟩

/-- Endpoint `PUT /customers/<id>` (`update_customer`, app.py lines 147-163):
404-style error when the id resolves to no customer, partial validation
of the body, then the attribute loop over the supplied keys. -/
def update_customer (db : DB) (id : Nat) (b : CustomerBody) :
    Except ApiError Customer × DB :=
  match db.customers.find? (fun c => c.id == id) with
  | none => (.error (.notFoundError "user not found"), db)
  | some c =>
    let errs := patchFieldErrors b
    if !errs.isEmpty then (.error (.validationError errs), db)
    else
      let c2 := applyPatch c b
      (.ok c2, ⟨db.customers.map (fun x => if x.id == c.id then c2 else x),
                db.orders, db.items,
                db.nextCustomerId, db.nextOrderId, db.nextItemId⟩)

/-- Endpoint `DELETE /customers/<id>` (`delete_customer`, app.py lines 165-173).
Only the customer row itself is deleted by the application code. -/
def delete_customer (db : DB) (id : Nat) : Except ApiError Customer × DB :=
  match db.customers.find? (fun c => c.id == id) with
  | none => (.error (.notFoundError "user not found"), db)
  | some c =>
    (.ok c, ⟨db.customers.eraseP (fun x => x.id == c.id),
             db.orders, db.items,
             db.nextCustomerId, db.nextOrderId, db.nextItemId⟩)

/-- Endpoint `POST /order/<id>` (`create_order`, app.py lines 175-192): the id must
resolve to a customer, the body must load through `OrderSchema`, and the
new order's state is the literal `"Solicitada"` (line 188) — the caller's
`state` field, if any, is never read. -/
def create_order (db : DB) (id : Nat) (b : OrderBody) :
    Except ApiError Order × DB :=
  match db.customers.find? (fun c => c.id == id) with
  | none => (.error (.notFoundError "user not found"), db)
  | some _ =>
    let errs := orderFieldErrors b
    if !errs.isEmpty then (.error (.validationError errs), db)
    else
      match b.date with
      | none => (.error (.unhandledKeyError "date"), db)
      | some d =>
        let o : Order := ⟨db.nextOrderId, id, d, "Solicitada"⟩
        (.ok o, ⟨db.customers, db.orders ++ [o], db.items,
                 db.nextCustomerId, db.nextOrderId + 1, db.nextItemId⟩)

/-- An order with its state overwritten (the `order.state = ...`
assignments of app.py lines 207 and 209). -/
def setState (o : Order) (s : String) : Order :=
  ⟨o.id, o.customer_id, o.date, s⟩

/-- Endpoint `PUT /order/<id>/<sw>` (`update_order`, app.py lines 200-215): decision
token `"1"` stores `"Aprobada"`, `"0"` stores `"Anulada"`, anything else
is a `param error`.  The current state is never consulted. -/
def update_order (db : DB) (id : Nat) (sw : String) :
    Except ApiError Order × DB :=
  match db.orders.find? (fun o => o.id == id) with
  | none => (.error (.notFoundError "order not found"), db)
  | some o =>
    if sw == "1" then
      let o2 := setState o "Aprobada"
      (.ok o2, ⟨db.customers,
                db.orders.map (fun x => if x.id == o.id then o2 else x),
                db.items, db.nextCustomerId, db.nextOrderId, db.nextItemId⟩)
    else if sw == "0" then
      let o2 := setState o "Anulada"
      (.ok o2, ⟨db.customers,
                db.orders.map (fun x => if x.id == o.id then o2 else x),
                db.items, db.nextCustomerId, db.nextOrderId, db.nextItemId⟩)
    else (.error (.invalidParameterError "param error"), db)

/-- Endpoint `POST /item/<id>` (`create_item`, app.py lines 218-239): the id must
resolve to an order, the body must load through `ItemSchema`, and the
order's state must be exactly `"Solicitada"` (line 230), else the
`InvalidStateError` message of line 231. -/
def create_item (db : DB) (id : Nat) (b : ItemBody) :
    Except ApiError Item × DB :=
  match db.orders.find? (fun o => o.id == id) with
  | none => (.error (.notFoundError "order not found"), db)
  | some o =>
    let errs := itemFieldErrors b
    if !errs.isEmpty then (.error (.validationError errs), db)
    else
      if o.state != "Solicitada" then
        (.error (.invalidStateError
          "order probably approved or rejected, you cannot add items"), db)
      else
        match b.width, b.length with
        | some w, some l =>
          let it : Item := ⟨db.nextItemId, id, w, l⟩
          (.ok it, ⟨db.customers, db.orders, db.items ++ [it],
                    db.nextCustomerId, db.nextOrderId, db.nextItemId + 1⟩)
        | _, _ => (.error (.unhandledKeyError "width"), db)

/-! ### Serialization views

`GET /order/<id>` dumps through `OrderItemsSchema`, whose `items` field
nests `ItemSchema`, whose `order` field nests `OrderSchema`, whose
`customer` field nests `CustomerSchema`.  The ORM relationship lookups
(`item.order`, `order.customer`) become `find?` over the tables. -/

/-- Shape of a `CustomerSchema` dump of a customer row. -/
structure CustomerView where
  id : Nat
  name : String
  email : String
  phone : String
  address : String
  nationality : String
deriving DecidableEq

/-- Dump a customer through `CustomerSchema`. -/
def dumpCustomer (c : Customer) : CustomerView :=
  ⟨c.id, c.name, c.email, c.phone, c.address, c.nationality⟩

/-- Shape of an `OrderSchema` dump of an order row: includes a nested customer. -/
structure OrderView where
  id : Nat
  customer_id : Nat
  date : String
  state : String
  customer : Option CustomerView
deriving DecidableEq

/-- Dump an order through `OrderSchema`: the `customer` field is the
nested dump of the referenced customer row, when it exists. -/
def dumpOrder (db : DB) (o : Order) : OrderView :=
  ⟨o.id, o.customer_id, o.date, o.state,
   (db.customers.find? (fun c => c.id == o.customer_id)).map dumpCustomer⟩

/-- Shape of an `ItemSchema` dump of an item row: includes a nested order (which
itself includes a nested customer). -/
structure ItemView where
  id : Nat
  order_id : Nat
  width : Rat
  length : Rat
  order : Option OrderView
deriving DecidableEq

/-- Dump an item through `ItemSchema`. -/
def dumpItem (db : DB) (it : Item) : ItemView :=
  ⟨it.id, it.order_id, it.width, it.length,
   (db.orders.find? (fun o => o.id == it.order_id)).map (dumpOrder db)⟩

/-- Shape of an `OrderItemsSchema` dump: the order's own columns plus the nested dump
of every item of the order; no top-level `customer` field. -/
structure OrderItemsView where
  id : Nat
  customer_id : Nat
  date : String
  state : String
  items : List ItemView
deriving DecidableEq

/-- The item rows of an order (the `Order.items` relationship). -/
def orderItemsOf (db : DB) (o : Order) : List Item :=
  db.items.filter (fun it => it.order_id == o.id)

/-- Dump an order through `OrderItemsSchema`. -/
def dumpOrderItems (db : DB) (o : Order) : OrderItemsView :=
  ⟨o.id, o.customer_id, o.date, o.state,
   (orderItemsOf db o).map (dumpItem db)⟩

/-- Endpoint `GET /order/<id>` (`get_order`, app.py lines 241-248). -/
def get_order (db : DB) (id : Nat) : Except ApiError OrderItemsView :=
  match db.orders.find? (fun o => o.id == id) with
  | none => .error (.notFoundError "Order not found")
  | some o => .ok (dumpOrderItems db o)

/-- True when the `GET /order/<id>` view embeds a full Customer record
somewhere (inside a nested item's nested order). -/
def hasNestedCustomer (v : OrderItemsView) : Bool :=
  v.items.any (fun iv =>
    match iv.order with
    | some ov => ov.customer.isSome
    | none => false)

/-! ### Operation traces

One constructor per HTTP endpoint; `step` is the state transition each
request performs (the read-only endpoints leave the state unchanged). -/

/-- A single API request. -/
inductive Op where
  | createCustomer (b : CustomerBody)
  | updateCustomer (id : Nat) (b : CustomerBody)
  | deleteCustomer (id : Nat)
  | createOrder (id : Nat) (b : OrderBody)
  | transitionOrder (id : Nat) (sw : String)
  | createItem (id : Nat) (b : ItemBody)
  | listCustomers
  | listOrders
  | getOrder (id : Nat)

/-- The state after serving one request. -/
def step (db : DB) : Op → DB
  | .createCustomer b => (create_customer db b).2
  | .updateCustomer id b => (update_customer db id b).2
  | .deleteCustomer id => (delete_customer db id).2
  | .createOrder id b => (create_order db id b).2
  | .transitionOrder id sw => (update_order db id sw).2
  | .createItem id b => (create_item db id b).2
  | .listCustomers => db
  | .listOrders => db
  | .getOrder _ => db

/-- The state after serving a sequence of requests. -/
def run (db : DB) (ops : List Op) : DB := ops.foldl step db

/-- True when the request is a `CreateItem` for order `oid` that succeeds
in the given state. -/
def createItemSucceeds (db : DB) (oid : Nat) : Op → Bool
  | .createItem id b => id == oid && resultOk (create_item db id b).1
  | _ => false

/-- Number of successful `CreateItem` requests for order `oid` along a
trace started in `db`. -/
def successfulCreateItemCount (db : DB) (ops : List Op) (oid : Nat) : Nat :=
  match ops with
  | [] => 0
  | op :: rest =>
    (if createItemSucceeds db oid op then 1 else 0) +
      successfulCreateItemCount (step db op) rest oid

/-- Number of item rows belonging to order `oid`. -/
def itemCount (db : DB) (oid : Nat) : Nat :=
  (db.items.filter (fun it => it.order_id == oid)).length

/-! ### Fixtures used by the concrete witnesses and counterexamples -/

/-- A fully valid registration body. -/
def anaBody : CustomerBody :=
  ⟨none, some "Ana Cruz", some "ana@x.com", some "5551234567", some "Main St", some "MX"⟩

/-- The customer row `anaBody` produces on a fresh store. -/
def anaC : Customer := ⟨1, "Ana Cruz", "ana@x.com", "5551234567", "Main St", "MX"⟩

/-- Store holding exactly one customer. -/
def oneCustomerDB : DB := ⟨[anaC], [], [], 2, 1, 1⟩

/-- Store holding one customer and one order in the Requested state. -/
def oneOrderDB : DB := ⟨[anaC], [⟨1, 1, "2024-01-10", "Solicitada"⟩], [], 2, 2, 1⟩

/-- Store holding one customer and one order already Approved. -/
def approvedOrderDB : DB := ⟨[anaC], [⟨1, 1, "2024-01-10", "Aprobada"⟩], [], 2, 2, 1⟩

/-- Store holding one customer, one Requested order and one item. -/
def orderWithItemDB : DB :=
  ⟨[anaC], [⟨1, 1, "2024-01-10", "Solicitada"⟩], [⟨1, 1, 2, 3⟩], 2, 2, 2⟩

/-! ### Helper lemmas -/

/-- Replacing, in a list of orders, every row that shares the id of the
first row matching `id` by a row `o2` with that same id makes `o2` the
first row matching `id`. -/
theorem find_id_map_set (l : List Order) (id : Nat) (o o2 : Order)
    (hid : o2.id = o.id) :
    l.find? (fun x => x.id == id) = some o →
    (l.map (fun x => if x.id == o.id then o2 else x)).find?
        (fun x => x.id == id) = some o2 := by
  induction l with
  | nil => intro ho; simp at ho
  | cons a t ih =>
    intro ho
    by_cases hp : (a.id == id) = true
    · have ha : a = o := by
        simp [List.find?_cons, hp] at ho
        exact ho
      subst ha
      simp [List.find?_cons, hid, hp]
    · have ho2 : t.find? (fun x => x.id == id) = some o := by
        simp [List.find?_cons, hp] at ho
        exact ho
      have hpo : (o.id == id) = true := by
        have h3 := List.find?_some ho2
        simpa using h3
      have hao : (a.id == o.id) = false := by
        rw [beq_eq_false_iff_ne]
        intro hh
        apply hp
        rw [hh]
        exact hpo
      rw [List.map_cons]
      have hfa : (if a.id == o.id then o2 else a) = a := by
        simp [hao]
      rw [hfa]
      simp only [List.find?_cons]
      have hpf : (a.id == id) = false := by simpa using hp
      simp only [hpf]
      exact ih ho2

/-! ### Claims -/

/-- C1: for every existing customer id and every request body containing a
valid date, CreateOrder persists a new Order whose state is the initial
value Requested, regardless of any state value supplied by the caller in
the request body (the body `b`, including its `state` field, is
universally quantified and the conclusion does not depend on it). -/
theorem c1_create_order_forces_requested
    (db : DB) (id : Nat) (b : OrderBody) (c : Customer) (d : String)
    (hc : db.customers.find? (fun x => x.id == id) = some c)
    (hd : b.date = some d) (hv : isValidDate d = true) :
    create_order db id b =
      (.ok ⟨db.nextOrderId, id, d, Requested⟩,
       ⟨db.customers, db.orders ++ [⟨db.nextOrderId, id, d, Requested⟩],
        db.items, db.nextCustomerId, db.nextOrderId + 1, db.nextItemId⟩) := by
  simp [create_order, hc, orderFieldErrors, hd, hv, Requested]

/-- Witness for C1: on a store with one customer, a body carrying a valid
date and the caller-chosen state "Aprobada" still yields an order in state
Requested. -/
theorem c1_witness :
    (oneCustomerDB.customers.find? (fun x => x.id == 1) = some anaC
      ∧ (⟨some "2024-01-10", some "Aprobada"⟩ : OrderBody).date = some "2024-01-10"
      ∧ isValidDate "2024-01-10" = true)
    ∧ create_order oneCustomerDB 1 ⟨some "2024-01-10", some "Aprobada"⟩ =
      (.ok ⟨1, 1, "2024-01-10", Requested⟩,
       ⟨[anaC], [⟨1, 1, "2024-01-10", Requested⟩], [], 2, 2, 1⟩) :=
  ⟨⟨by decide, rfl, by decide⟩,
   c1_create_order_forces_requested oneCustomerDB 1
     ⟨some "2024-01-10", some "Aprobada"⟩ anaC "2024-01-10"
     (by decide) rfl (by decide)⟩

/-- C2: for every existing order id, TransitionOrder with decision token
"1" sets the order's state to Approved and with token "0" sets it to
Rejected; for every other decision token it fails with
InvalidParameterError and the order's state (indeed the whole store) is
unchanged. -/
theorem c2_transition_order_tokens
    (db : DB) (id : Nat) (o : Order)
    (h : db.orders.find? (fun x => x.id == id) = some o) :
    update_order db id "1" =
      (.ok (setState o Approved),
       ⟨db.customers,
        db.orders.map (fun x => if x.id == o.id then setState o Approved else x),
        db.items, db.nextCustomerId, db.nextOrderId, db.nextItemId⟩)
  ∧ update_order db id "0" =
      (.ok (setState o Rejected),
       ⟨db.customers,
        db.orders.map (fun x => if x.id == o.id then setState o Rejected else x),
        db.items, db.nextCustomerId, db.nextOrderId, db.nextItemId⟩)
  ∧ ∀ sw : String, sw ≠ "1" → sw ≠ "0" →
      update_order db id sw = (.error (.invalidParameterError "param error"), db) := by
  refine ⟨?_, ?_, ?_⟩
  · simp [update_order, h, Approved]
  · simp [update_order, h, Rejected]
  · intro sw h1 h0
    simp [update_order, h, h1, h0]

/-- Witness for C2: on a store with one Requested order, token "1"
approves, token "0" rejects, token "2" is a param error. -/
theorem c2_witness :
    oneOrderDB.orders.find? (fun x => x.id == 1) = some ⟨1, 1, "2024-01-10", "Solicitada"⟩
    ∧ update_order oneOrderDB 1 "1" =
      (.ok ⟨1, 1, "2024-01-10", Approved⟩,
       ⟨[anaC], [⟨1, 1, "2024-01-10", Approved⟩], [], 2, 2, 1⟩)
    ∧ update_order oneOrderDB 1 "0" =
      (.ok ⟨1, 1, "2024-01-10", Rejected⟩,
       ⟨[anaC], [⟨1, 1, "2024-01-10", Rejected⟩], [], 2, 2, 1⟩)
    ∧ update_order oneOrderDB 1 "2" =
      (.error (.invalidParameterError "param error"), oneOrderDB) :=
  have h := c2_transition_order_tokens oneOrderDB 1
    ⟨1, 1, "2024-01-10", "Solicitada"⟩ (by decide)
  ⟨by decide, h.1, h.2.1, h.2.2 "2" (by decide) (by decide)⟩

/-- C7: for every id not present among persisted customers and every
request body, UpdateCustomer fails with NotFoundError and leaves the
entire persisted state (all customers, orders and items) unchanged. -/
theorem c7_update_customer_not_found
    (db : DB) (id : Nat) (b : CustomerBody)
    (h : db.customers.find? (fun c => c.id == id) = none) :
    update_customer db id b = (.error (.notFoundError "user not found"), db) := by
  simp [update_customer, h]

/-- Witness for C7: updating customer 5 of a one-customer store fails and
changes nothing. -/
theorem c7_witness :
    oneCustomerDB.customers.find? (fun c => c.id == 5) = none
    ∧ update_customer oneCustomerDB 5 anaBody =
      (.error (.notFoundError "user not found"), oneCustomerDB) :=
  ⟨by decide, c7_update_customer_not_found oneCustomerDB 5 anaBody (by decide)⟩

/-- C4: for every order already in a terminal state (Approved or
Rejected), a further TransitionOrder call with token "1" or "0" does not
fail: it succeeds and overwrites the stored state with the new terminal
value (the handler never inspects the current state before transitioning). -/
theorem c4_retransition_terminal_order
    (db : DB) (id : Nat) (o : Order)
    (h : db.orders.find? (fun x => x.id == id) = some o)
    (hterm : o.state = Approved ∨ o.state = Rejected) :
    ((update_order db id "1").1 = .ok (setState o Approved)
      ∧ (update_order db id "1").2.orders.find? (fun x => x.id == id)
          = some (setState o Approved))
  ∧ ((update_order db id "0").1 = .ok (setState o Rejected)
      ∧ (update_order db id "0").2.orders.find? (fun x => x.id == id)
          = some (setState o Rejected)) := by
  have h1 : update_order db id "1" =
      (.ok (setState o "Aprobada"),
       ⟨db.customers,
        db.orders.map (fun x => if x.id == o.id then setState o "Aprobada" else x),
        db.items, db.nextCustomerId, db.nextOrderId, db.nextItemId⟩) := by
    simp [update_order, h]
  have h0 : update_order db id "0" =
      (.ok (setState o "Anulada"),
       ⟨db.customers,
        db.orders.map (fun x => if x.id == o.id then setState o "Anulada" else x),
        db.items, db.nextCustomerId, db.nextOrderId, db.nextItemId⟩) := by
    simp [update_order, h]
  refine ⟨⟨?_, ?_⟩, ⟨?_, ?_⟩⟩
  · rw [h1]
    rfl
  · rw [h1]
    exact find_id_map_set db.orders id o (setState o "Aprobada") rfl h
  · rw [h0]
    rfl
  · rw [h0]
    exact find_id_map_set db.orders id o (setState o "Anulada") rfl h

/-- Witness for C4: re-transitioning an already Approved order with "1"
and with "0" both succeed and overwrite the state. -/
theorem c4_witness :
    (approvedOrderDB.orders.find? (fun x => x.id == 1)
        = some ⟨1, 1, "2024-01-10", "Aprobada"⟩
      ∧ (⟨1, 1, "2024-01-10", "Aprobada"⟩ : Order).state = Approved)
    ∧ ((update_order approvedOrderDB 1 "1").1
          = .ok ⟨1, 1, "2024-01-10", Approved⟩
        ∧ (update_order approvedOrderDB 1 "1").2.orders.find? (fun x => x.id == 1)
          = some ⟨1, 1, "2024-01-10", Approved⟩)
    ∧ ((update_order approvedOrderDB 1 "0").1
          = .ok ⟨1, 1, "2024-01-10", Rejected⟩
        ∧ (update_order approvedOrderDB 1 "0").2.orders.find? (fun x => x.id == 1)
          = some ⟨1, 1, "2024-01-10", Rejected⟩) :=
  have h := c4_retransition_terminal_order approvedOrderDB 1
    ⟨1, 1, "2024-01-10", "Aprobada"⟩ (by decide) (Or.inl rfl)
  ⟨⟨by decide, rfl⟩, h.1, h.2⟩

/-- C3: for every existing order id and every request body with valid
numeric width and length, CreateItem succeeds and persists the item if
and only if the parent order's state is exactly Requested; when the state
is Approved or Rejected it fails with InvalidStateError and no item is
persisted. -/
theorem c3_create_item_gated_by_state
    (db : DB) (id : Nat) (o : Order) (b : ItemBody) (w l : Rat)
    (h : db.orders.find? (fun x => x.id == id) = some o)
    (hw : b.width = some w) (hl : b.length = some l) :
    (resultOk (create_item db id b).1 = true ↔ o.state = Requested)
  ∧ (o.state = Requested →
      create_item db id b =
        (.ok ⟨db.nextItemId, id, w, l⟩,
         ⟨db.customers, db.orders, db.items ++ [⟨db.nextItemId, id, w, l⟩],
          db.nextCustomerId, db.nextOrderId, db.nextItemId + 1⟩))
  ∧ (o.state = Approved ∨ o.state = Rejected →
      create_item db id b =
        (.error (.invalidStateError
          "order probably approved or rejected, you cannot add items"), db)) := by
  have herrs : itemFieldErrors b = [] := by simp [itemFieldErrors, hw, hl]
  by_cases hs : o.state = "Solicitada"
  · refine ⟨?_, ?_, ?_⟩
    · simp [create_item, h, herrs, hs, hw, hl, resultOk, Requested]
    · intro _
      simp [create_item, h, herrs, hs, hw, hl]
    · intro hterm
      rcases hterm with h1 | h1 <;> rw [hs] at h1 <;> simp [Approved, Rejected] at h1
  · refine ⟨?_, ?_, ?_⟩
    · simp [create_item, h, herrs, hs, resultOk, Requested]
    · intro hr
      rw [Requested] at hr
      exact absurd hr hs
    · intro _
      simp [create_item, h, herrs, hs]

/-- Witness for C3: on a Requested order the item is persisted, and the
success test agrees with the state being Requested. -/
theorem c3_witness :
    (oneOrderDB.orders.find? (fun x => x.id == 1)
        = some ⟨1, 1, "2024-01-10", "Solicitada"⟩
      ∧ (⟨some 2, some 3⟩ : ItemBody).width = some 2
      ∧ (⟨some 2, some 3⟩ : ItemBody).length = some 3)
    ∧ (resultOk (create_item oneOrderDB 1 ⟨some 2, some 3⟩).1 = true
        ↔ (⟨1, 1, "2024-01-10", "Solicitada"⟩ : Order).state = Requested)
    ∧ create_item oneOrderDB 1 ⟨some 2, some 3⟩ =
        (.ok ⟨1, 1, 2, 3⟩,
         ⟨[anaC], [⟨1, 1, "2024-01-10", "Solicitada"⟩], [⟨1, 1, 2, 3⟩], 2, 2, 2⟩) :=
  have h := c3_create_item_gated_by_state oneOrderDB 1
    ⟨1, 1, "2024-01-10", "Solicitada"⟩ ⟨some 2, some 3⟩ 2 3 (by decide) rfl rfl
  ⟨⟨by decide, rfl, rfl⟩, h.1, h.2.1 rfl⟩

/-- C5 (amended): for every already-persisted customer and every second
CreateCustomer call whose body passes field validation and supplies an
email, if that email (or the supplied phone) equals the persisted
customer's, the second call fails with ConflictError and persists
nothing.  (The amendment is forced: a duplicate-phone body that omits the
email key never reaches the phone check — it crashes with an unhandled
KeyError, see the counterexample.) -/
theorem c5_duplicate_email_or_phone_conflict
    (db : DB) (b : CustomerBody) (e p : String)
    (hv : customerFieldErrors b = [])
    (he : b.email = some e) (hp : b.phone = some p)
    (hdup : (db.customers.find? (fun c => c.email == e)).isSome = true
      ∨ (db.customers.find? (fun c => c.phone == p)).isSome = true) :
    isConflictError (create_customer db b).1 = true
    ∧ (create_customer db b).2 = db := by
  by_cases hde : (db.customers.find? (fun c => c.email == e)).isSome = true
  · constructor <;> simp [create_customer, hv, he, hde, isConflictError]
  · have hdp : (db.customers.find? (fun c => c.phone == p)).isSome = true := by
      rcases hdup with h1 | h1
      · exact absurd h1 hde
      · exact h1
    constructor <;>
      simp [create_customer, hv, he, hp, hde, hdp, isConflictError]

/-- A second registration body that duplicates Ana's email. -/
def dupEmailBody : CustomerBody :=
  ⟨none, some "Roberto Diaz", some "ana@x.com", some "0000000000", some "Oak St", some "CO"⟩

/-- Witness for C5: a valid body reusing the persisted email yields a
ConflictError and leaves the store unchanged. -/
theorem c5_witness :
    (customerFieldErrors dupEmailBody = []
      ∧ dupEmailBody.email = some "ana@x.com"
      ∧ dupEmailBody.phone = some "0000000000"
      ∧ (oneCustomerDB.customers.find? (fun c => c.email == "ana@x.com")).isSome = true)
    ∧ isConflictError (create_customer oneCustomerDB dupEmailBody).1 = true
    ∧ (create_customer oneCustomerDB dupEmailBody).2 = oneCustomerDB :=
  have h := c5_duplicate_email_or_phone_conflict oneCustomerDB dupEmailBody
    "ana@x.com" "0000000000" (by decide) rfl rfl (Or.inl (by decide))
  ⟨⟨by decide, rfl, rfl, by decide⟩, h.1, h.2⟩

/-- A second registration body that duplicates Ana's phone but omits the
email key (the schema does not require email, so it passes validation). -/
def dupPhoneNoEmailBody : CustomerBody :=
  ⟨none, some "Roberto Diaz", none, some "5551234567", some "Oak St", some "CO"⟩

/-- Counterexample to C5 as stated: the second call supplies a phone equal
to the persisted customer's, yet it does not fail with ConflictError — it
passes validation and crashes with an unhandled KeyError on the missing
email key before the duplicate-phone check is reached. -/
theorem c5_counterexample :
    customerFieldErrors dupPhoneNoEmailBody = []
    ∧ dupPhoneNoEmailBody.phone = some "5551234567"
    ∧ oneCustomerDB.customers.map (fun c => c.phone) = ["5551234567"]
    ∧ create_customer oneCustomerDB dupPhoneNoEmailBody =
        (.error (.unhandledKeyError "email"), oneCustomerDB)
    ∧ isConflictError (create_customer oneCustomerDB dupPhoneNoEmailBody).1 = false := by
  refine ⟨by decide, rfl, by decide, by decide, by decide⟩

/-- A registration body that is valid except for omitting the email key. -/
def missingEmailBody : CustomerBody :=
  ⟨none, some "Ana Cruz", none, some "5551234567", some "Main St", some "MX"⟩

/-- C6 (code bug): a body missing the email field passes schema validation
(the schema omits `required=True` on `fields.Email()`, although the model
column is `nullable=False`), so instead of the ValidationError the claim
requires, `create_customer` crashes with an unhandled KeyError at the
duplicate-email lookup of app.py line 121.  No customer is persisted.
Every other field of the claim's list is validated as claimed. -/
theorem c6_missing_email_passes_validation_then_crashes :
    customerFieldErrors missingEmailBody = []
    ∧ create_customer DB.empty missingEmailBody =
        (.error (.unhandledKeyError "email"), DB.empty) := by
  refine ⟨by decide, by decide⟩

/-- C10 (amended): for every existing customer and every UpdateCustomer
request body that passes partial validation, the customer's identifier is
never modified — even when the body contains an id key — and every other
supplied key is applied verbatim to the record (`applyPatch`); when some
supplied field fails partial validation, the call fails with
ValidationError and no supplied key is applied. -/
theorem c10_update_customer_id_immutable
    (db : DB) (id : Nat) (c : Customer) (b : CustomerBody)
    (hc : db.customers.find? (fun x => x.id == id) = some c) :
    (patchFieldErrors b = [] →
      update_customer db id b =
        (.ok (applyPatch c b),
         ⟨db.customers.map (fun x => if x.id == c.id then applyPatch c b else x),
          db.orders, db.items,
          db.nextCustomerId, db.nextOrderId, db.nextItemId⟩)
      ∧ (applyPatch c b).id = c.id)
  ∧ (patchFieldErrors b ≠ [] →
      update_customer db id b =
        (.error (.validationError (patchFieldErrors b)), db)) := by
  constructor
  · intro he
    refine ⟨?_, rfl⟩
    simp [update_customer, hc, he]
  · intro he
    simp [update_customer, hc, List.isEmpty_iff, he]

/-- A patch that tries to overwrite the id and rename the customer. -/
def renamePatch : CustomerBody :=
  ⟨some 99, some "Roberto", none, none, none, none⟩

/-- Witness for C10: the patch's id key is ignored, its name key applied. -/
theorem c10_witness :
    (oneCustomerDB.customers.find? (fun x => x.id == 1) = some anaC
      ∧ patchFieldErrors renamePatch = [])
    ∧ update_customer oneCustomerDB 1 renamePatch =
        (.ok ⟨1, "Roberto", "ana@x.com", "5551234567", "Main St", "MX"⟩,
         ⟨[⟨1, "Roberto", "ana@x.com", "5551234567", "Main St", "MX"⟩],
          [], [], 2, 1, 1⟩)
    ∧ (applyPatch anaC renamePatch).id = anaC.id :=
  have h := (c10_update_customer_id_immutable oneCustomerDB 1 anaC renamePatch
    (by decide)).1 (by decide)
  ⟨⟨by decide, by decide⟩, h.1, h.2⟩

/-- A patch whose name value violates the min-length-3 validator. -/
def shortNamePatch : CustomerBody :=
  ⟨some 99, some "ab", none, none, none, none⟩

/-- Counterexample to C10 as stated: a body whose supplied name is too
short is rejected by partial validation, so the supplied name key is NOT
applied verbatim — the record keeps its old name. -/
theorem c10_counterexample :
    update_customer oneCustomerDB 1 shortNamePatch =
      (.error (.validationError [("name", "Shorter than minimum length 3.")]),
       oneCustomerDB)
    ∧ (update_customer oneCustomerDB 1 shortNamePatch).2.customers.map
        (fun c => c.name) = ["Ana Cruz"]
    ∧ shortNamePatch.name = some "ab"
    ∧ ("Ana Cruz" : String) ≠ "ab" := by
  refine ⟨by decide, by decide, rfl, by decide⟩

/-- C9 (amended): for every id, GetOrder fails with NotFoundError when no
order with that id exists; otherwise it returns the order together with
its full nested item list.  The top-level view carries only the
customer_id foreign key (the `OrderItemsView` shape has no customer
field), BUT each nested item embeds its parent order view, which embeds
the full nested Customer record whenever the referenced customer exists —
so the returned view is not customer-free, contrary to the claim's
parenthetical (see the counterexample). -/
theorem c9_get_order_view (db : DB) (id : Nat) :
    (db.orders.find? (fun o => o.id == id) = none →
      get_order db id = .error (.notFoundError "Order not found"))
  ∧ (∀ o, db.orders.find? (fun o => o.id == id) = some o →
      get_order db id = .ok (dumpOrderItems db o)
      ∧ (dumpOrderItems db o).items
          = (db.items.filter (fun it => it.order_id == o.id)).map (dumpItem db)
      ∧ (∀ iv ∈ (dumpOrderItems db o).items, iv.order = some (dumpOrder db o))
      ∧ (dumpOrder db o).customer
          = (db.customers.find? (fun c => c.id == o.customer_id)).map dumpCustomer) := by
  constructor
  · intro h
    simp [get_order, h]
  · intro o ho
    have hoid : o.id = id := by
      have h3 := List.find?_some ho
      simpa using h3
    refine ⟨by simp [get_order, ho], rfl, ?_, rfl⟩
    intro iv hiv
    have hiv2 : iv ∈ (db.items.filter
        (fun it => it.order_id == o.id)).map (dumpItem db) := hiv
    rcases List.mem_map.mp hiv2 with ⟨it, hit, hdump⟩
    have hito : it.order_id = o.id := by
      have h4 := (List.mem_filter.mp hit).2
      simpa using h4
    rw [← hdump]
    show (db.orders.find? (fun x => x.id == it.order_id)).map (dumpOrder db)
        = some (dumpOrder db o)
    rw [hito, hoid, ho]
    rfl

/-- Witness for C9: on a store with one order and one item, GetOrder
returns the dumped view. -/
theorem c9_witness :
    get_order orderWithItemDB 1 =
      .ok (dumpOrderItems orderWithItemDB ⟨1, 1, "2024-01-10", "Solicitada"⟩) :=
  ((c9_get_order_view orderWithItemDB 1).2
    ⟨1, 1, "2024-01-10", "Solicitada"⟩ (by decide)).1

/-- Counterexample to C9 as stated: the view GetOrder returns for an
order with one item contains a full nested Customer record (inside the
item's nested order), not only the customer_id foreign key. -/
theorem c9_counterexample :
    (match get_order orderWithItemDB 1 with
      | .ok v => hasNestedCustomer v
      | .error _ => false) = true := by decide

/-- The handler `create_customer` never touches the item table. -/
theorem items_create_customer (db : DB) (b : CustomerBody) :
    (create_customer db b).2.items = db.items := by
  simp only [create_customer]
  repeat' split <;> try rfl

/-- The handler `update_customer` never touches the item table. -/
theorem items_update_customer (db : DB) (id : Nat) (b : CustomerBody) :
    (update_customer db id b).2.items = db.items := by
  simp only [update_customer]
  repeat' split <;> try rfl

/-- The handler `delete_customer` never touches the item table (the application code
deletes only the customer row). -/
theorem items_delete_customer (db : DB) (id : Nat) :
    (delete_customer db id).2.items = db.items := by
  simp only [delete_customer]
  repeat' split <;> try rfl

/-- The handler `create_order` never touches the item table. -/
theorem items_create_order (db : DB) (id : Nat) (b : OrderBody) :
    (create_order db id b).2.items = db.items := by
  simp only [create_order]
  repeat' split <;> try rfl

/-- The handler `update_order` never touches the item table. -/
theorem items_update_order (db : DB) (id : Nat) (sw : String) :
    (update_order db id sw).2.items = db.items := by
  simp only [update_order]
  repeat' split <;> try rfl

/-- The handler `create_item` grows order `oid`'s item count by one exactly when it
succeeds and targets `oid`, and otherwise leaves it unchanged. -/
theorem itemCount_create_item (db : DB) (id : Nat) (b : ItemBody) (oid : Nat) :
    itemCount (create_item db id b).2 oid =
      itemCount db oid +
        (if (id == oid && resultOk (create_item db id b).1) then 1 else 0) := by
  simp only [create_item]
  split
  · simp [itemCount, resultOk]
  · split
    · simp [itemCount, resultOk]
    · split
      · simp [itemCount, resultOk]
      · split
        · by_cases hio : (id == oid) = true
          · simp [itemCount, resultOk, List.filter_append, hio]
          · simp [itemCount, resultOk, List.filter_append, hio]
        · simp [itemCount, resultOk]

/-- One request changes order `oid`'s item count by one exactly when it is
a successful CreateItem for `oid`. -/
theorem itemCount_step (db : DB) (oid : Nat) (op : Op) :
    itemCount (step db op) oid =
      itemCount db oid + (if createItemSucceeds db oid op then 1 else 0) := by
  cases op with
  | createCustomer b =>
    simp [step, createItemSucceeds, itemCount, items_create_customer]
  | updateCustomer id b =>
    simp [step, createItemSucceeds, itemCount, items_update_customer]
  | deleteCustomer id =>
    simp [step, createItemSucceeds, itemCount, items_delete_customer]
  | createOrder id b =>
    simp [step, createItemSucceeds, itemCount, items_create_order]
  | transitionOrder id sw =>
    simp [step, createItemSucceeds, itemCount, items_update_order]
  | createItem id b =>
    simpa [step, createItemSucceeds] using itemCount_create_item db id b oid
  | listCustomers => simp [step, createItemSucceeds]
  | listOrders => simp [step, createItemSucceeds]
  | getOrder id => simp [step, createItemSucceeds]

/-- Along a trace, order `oid`'s item count grows by exactly the number of
successful CreateItem requests for `oid` (items are never updated or
deleted by any endpoint). -/
theorem itemCount_run (ops : List Op) (db : DB) (oid : Nat) :
    itemCount (run db ops) oid =
      itemCount db oid + successfulCreateItemCount db ops oid := by
  induction ops generalizing db with
  | nil => simp [run, successfulCreateItemCount]
  | cons op rest ih =>
    have h1 : run db (op :: rest) = run (step db op) rest := rfl
    rw [h1, ih (step db op), itemCount_step]
    simp only [successfulCreateItemCount]
    omega

/-- C8: for every trace of requests served from the fresh store, the
number of items in the nested item list GetOrder returns for an order
equals the number of successful CreateItem calls made for that order
along the trace (each of which necessarily found the order in the
Requested state), since no endpoint updates or deletes items. -/
theorem c8_item_count_equals_successful_creates
    (ops : List Op) (oid : Nat) (v : OrderItemsView)
    (h : get_order (run DB.empty ops) oid = .ok v) :
    v.items.length = successfulCreateItemCount DB.empty ops oid := by
  cases hfo : (run DB.empty ops).orders.find? (fun o => o.id == oid) with
  | none => simp [get_order, hfo] at h
  | some o =>
    simp only [get_order, hfo] at h
    have hv : dumpOrderItems (run DB.empty ops) o = v := by
      injection h
    have hoid : o.id = oid := by
      have h3 := List.find?_some hfo
      simpa using h3
    rw [← hv]
    have hlen : (dumpOrderItems (run DB.empty ops) o).items.length
        = itemCount (run DB.empty ops) oid := by
      simp [dumpOrderItems, orderItemsOf, itemCount, hoid]
    rw [hlen, itemCount_run]
    simp [itemCount, DB.empty]

/-- A concrete session: register Ana, open an order, attach two items. -/
def c8ops : List Op :=
  [.createCustomer anaBody,
   .createOrder 1 ⟨some "2024-01-10", none⟩,
   .createItem 1 ⟨some 2, some 3⟩,
   .createItem 1 ⟨some 2, some 3⟩]

/-- The view GetOrder returns at the end of the session `c8ops`. -/
def c8view : OrderItemsView :=
  match get_order (run DB.empty c8ops) 1 with
  | .ok v => v
  | .error _ => ⟨0, 0, "", "", []⟩

/-- Witness for C8: after the session `c8ops`, GetOrder's item list has
length 2, the number of successful CreateItem calls. -/
theorem c8_witness :
    get_order (run DB.empty c8ops) 1 = .ok c8view
    ∧ c8view.items.length = successfulCreateItemCount DB.empty c8ops 1 :=
  ⟨by decide,
   c8_item_count_equals_successful_creates c8ops 1 c8view (by decide)⟩
